import Mathlib

/-!
Verification of the prediction-comparison / longitudinal-analysis pipeline of
the diabetes risk assessment portal (flask_app.py together with the document
store layer in firebase_config.py).

Python floats are modelled by the exact rational type Q below (integer
numerator, positive natural denominator, no normalisation) because the
pipeline only ever adds, multiplies, divides and compares clinical values and
timestamps.  Instants are modelled as rational seconds since the Unix epoch.
Loosely typed stored values are modelled as Option Q, where none stands for a
value that is absent or that float() cannot parse, so that the _safe_float
shim of the source becomes the identity on this representation.
-/

namespace Diabetes

/-- Exact rational numbers with a positive denominator and without gcd
normalisation, used to model Python float arithmetic in the pipeline.
All operations are kernel-computable. -/
structure Q where
  num : Int
  den : {d : Nat // 0 < d}
deriving DecidableEq

/-- Denominator of a Q as an integer. -/
def Q.deni (a : Q) : Int := Int.ofNat a.den.1

/-- Embed an integer. -/
def Q.ofInt (n : Int) : Q := ⟨n, ⟨1, Nat.one_pos⟩⟩

instance (n : Nat) : OfNat Q n := ⟨Q.ofInt (Int.ofNat n)⟩

instance : Neg Q := ⟨fun a => ⟨-a.num, a.den⟩⟩

instance : Add Q :=
  ⟨fun a b => ⟨a.num * b.deni + b.num * a.deni, ⟨a.den.1 * b.den.1, Nat.mul_pos a.den.2 b.den.2⟩⟩⟩

instance : Mul Q :=
  ⟨fun a b => ⟨a.num * b.num, ⟨a.den.1 * b.den.1, Nat.mul_pos a.den.2 b.den.2⟩⟩⟩

instance : Sub Q := ⟨fun a b => a + (-b)⟩

/-- Multiplicative inverse; 0 is mapped to 0 (the pipeline never divides by
zero: its only quotient has denominator insulin + 1 with insulin at least 0). -/
def Q.inv (a : Q) : Q :=
  if h : 0 < a.num then ⟨a.deni, ⟨a.num.toNat, by omega⟩⟩
  else if h2 : a.num < 0 then ⟨-a.deni, ⟨(-a.num).toNat, by omega⟩⟩
  else Q.ofInt 0

instance : Div Q := ⟨fun a b => a * b.inv⟩

/-- Value order on Q by cross multiplication (denominators are positive). -/
def Q.le (a b : Q) : Prop := a.num * b.deni ≤ b.num * a.deni

/-- Strict value order on Q. -/
def Q.lt (a b : Q) : Prop := a.num * b.deni < b.num * a.deni

instance : LE Q := ⟨Q.le⟩

instance : LT Q := ⟨Q.lt⟩

instance (a b : Q) : Decidable (a ≤ b) :=
  inferInstanceAs (Decidable (a.num * b.deni ≤ b.num * a.deni))

instance (a b : Q) : Decidable (a < b) :=
  inferInstanceAs (Decidable (a.num * b.deni < b.num * a.deni))

/-- Comparison of records through a Q valued key, the order used when the
pipeline sorts records with the Python sorted builtin. -/
def keyLe {α : Type} (key : α → Q) (a b : α) : Prop := key a ≤ key b

instance {α : Type} (key : α → Q) : DecidableRel (keyLe key) :=
  fun a b => inferInstanceAs (Decidable (key a ≤ key b))

instance {α : Type} (key : α → Q) : IsTrans α (keyLe key) :=
  ⟨fun a b c h1 h2 => by
    have db : (0 : Int) < (key b).deni := Int.ofNat_pos.mpr (key b).den.2
    have da : (0 : Int) < (key a).deni := Int.ofNat_pos.mpr (key a).den.2
    have dc : (0 : Int) < (key c).deni := Int.ofNat_pos.mpr (key c).den.2
    show (key a).num * (key c).deni ≤ (key c).num * (key a).deni
    have h1b : (key a).num * (key b).deni ≤ (key b).num * (key a).deni := h1
    have h2b : (key b).num * (key c).deni ≤ (key c).num * (key b).deni := h2
    have chain : (key a).num * (key c).deni * (key b).deni
        ≤ (key c).num * (key a).deni * (key b).deni := by nlinarith
    exact le_of_mul_le_mul_right chain db⟩

instance {α : Type} (key : α → Q) : IsTotal α (keyLe key) :=
  ⟨fun a b => by
    rcases Int.le_total ((key a).num * (key b).deni) ((key b).num * (key a).deni) with h | h
    · exact Or.inl h
    · exact Or.inr h⟩

/-- Model of the Python sorted builtin with a key function.  Python sorted is
a stable sort, and for a total preorder obtained from a key every stable sort
yields the same list, so insertion sort (which is stable) is a faithful
model. -/
def pySorted {α : Type} (key : α → Q) (l : List α) : List α :=
  List.insertionSort (keyLe key) l

/-! ## String helpers

Structural (fuel based) models of the Python string operations the pipeline
uses, written so that every definition reduces in the kernel. -/

/-- Fuel driven replacement of the non overlapping occurrences of a pattern,
left to right; the fuel is an upper bound on the number of steps. -/
def replaceFuel (pat rep : List Char) : Nat → List Char → List Char
  | _, [] => []
  | 0, l => l
  | n + 1, c :: cs =>
    if pat.isPrefixOf (c :: cs) then
      rep ++ replaceFuel pat rep n (List.drop pat.length (c :: cs))
    else
      c :: replaceFuel pat rep n cs

/-- Model of the Python str.replace method for a non empty pattern (the
pipeline only replaces a space, an underscore, the letter Z and the word
BloodPressure, all non empty). -/
def pyReplace (s pat rep : String) : String :=
  if pat.data.isEmpty then s
  else ⟨replaceFuel pat.data rep.data s.data.length s.data⟩

/-- Occurrence test for a pattern inside a list of characters. -/
def containsSubList (pat : List Char) : List Char → Bool
  | [] => pat.isPrefixOf ([] : List Char)
  | c :: cs => pat.isPrefixOf (c :: cs) || containsSubList pat cs

/-- Model of the Python substring containment test (pat in s). -/
def containsSub (s pat : String) : Bool := containsSubList pat.data s.data

/-- Decimal digit character for a value below ten. -/
def digitChar (d : Nat) : Char := Char.ofNat (48 + d)

/-- Fuel driven decimal digit list of a natural number. -/
def natDigitsAux : Nat → Nat → List Char
  | 0, _ => []
  | fuel + 1, n =>
    if n < 10 then [digitChar n]
    else natDigitsAux fuel (n / 10) ++ [digitChar (n % 10)]

/-- Decimal string of a natural number. -/
def natToDigits (n : Nat) : String := ⟨natDigitsAux (n + 1) n⟩

/-- Two digit zero padded decimal string. -/
def pad2 (n : Nat) : String := if n < 10 then "0" ++ natToDigits n else natToDigits n

/-- Decimal string of an integer. -/
def intToString (i : Int) : String :=
  if i < 0 then "-" ++ natToDigits (-i).toNat else natToDigits i.toNat

/-- Display string of a Q value (stands in for the Python float repr inside
the LLM prompt; the prompt text is not load bearing for any claim). -/
def qToString (q : Q) : String :=
  intToString q.num ++ (if q.den.1 = 1 then "" else "/" ++ natToDigits q.den.1)

/-! ## Calendar arithmetic

Conversions between civil dates and days since the Unix epoch (the standard
era based algorithms), used to model the datetime parsing and formatting done
by the Timestamp Resolver. -/

/-- Leap year test of the proleptic Gregorian calendar. -/
def isLeap (y : Int) : Bool := (y % 4 == 0 && y % 100 != 0) || y % 400 == 0

/-- Number of days of a month (months are 1 to 12; other inputs give 0 so
that day validation fails on them, as datetime rejects such dates). -/
def daysInMonth (y : Int) : Nat → Nat
  | 1 => 31
  | 2 => if isLeap y then 29 else 28
  | 3 => 31
  | 4 => 30
  | 5 => 31
  | 6 => 30
  | 7 => 31
  | 8 => 31
  | 9 => 30
  | 10 => 31
  | 11 => 30
  | 12 => 31
  | _ => 0

/-- Days since 1970-01-01 of a civil date. -/
def daysFromCivil (y : Int) (m d : Nat) : Int :=
  let y2 : Int := if m ≤ 2 then y - 1 else y
  let era : Int := Int.fdiv y2 400
  let yoe : Int := y2 - era * 400
  let mp : Int := if 2 < m then (m : Int) - 3 else (m : Int) + 9
  let doy : Int := Int.fdiv (153 * mp + 2) 5 + (d : Int) - 1
  let doe : Int := yoe * 365 + Int.fdiv yoe 4 - Int.fdiv yoe 100 + doy
  era * 146097 + doe - 719468

/-- Civil date of a number of days since 1970-01-01. -/
def civilFromDays (z0 : Int) : Int × Nat × Nat :=
  let z : Int := z0 + 719468
  let era : Int := Int.fdiv z 146097
  let doe : Int := z - era * 146097
  let yoe : Int :=
    Int.fdiv (doe - Int.fdiv doe 1460 + Int.fdiv doe 36524 - Int.fdiv doe 146096) 365
  let y : Int := yoe + era * 400
  let doy : Int := doe - (365 * yoe + Int.fdiv yoe 4 - Int.fdiv yoe 100)
  let mp : Int := Int.fdiv (5 * doy + 2) 153
  let d : Int := doy - Int.fdiv (153 * mp + 2) 5 + 1
  let m : Int := if mp < 10 then mp + 3 else mp - 9
  (if m ≤ 2 then y + 1 else y, m.toNat, d.toNat)

/-- Floor of a Q value. -/
def qfloor (a : Q) : Int := Int.fdiv a.num a.deni

/-! ## Datetime parsing and formatting

Models of the pieces of the Python datetime library used by the Timestamp
Resolver: datetime.fromisoformat (restricted to the YYYY-MM-DD and
YYYY-MM-DD sep HH:MM:SS[.ffffff][+HH:MM] shapes that the application itself
writes), datetime.fromtimestamp, datetime.strptime for the two fixed formats
of the source, and strftime for the label format. Instants are rational
seconds since the Unix epoch; the model uses one uniform timeline, so the
timezone attached by an offset aware parse is reflected by shifting the
instant. -/

/-- Value of a decimal digit character. -/
def readDigit (c : Char) : Option Nat :=
  if 48 ≤ c.toNat ∧ c.toNat ≤ 57 then some (c.toNat - 48) else none

/-- Read exactly two digits. -/
def read2 : List Char → Option (Nat × List Char)
  | a :: b :: rest =>
    match readDigit a, readDigit b with
    | some x, some y => some (10 * x + y, rest)
    | _, _ => none
  | _ => none

/-- Read exactly four digits. -/
def read4 : List Char → Option (Nat × List Char)
  | a :: b :: c :: d :: rest =>
    match readDigit a, readDigit b, readDigit c, readDigit d with
    | some x, some y, some z, some w => some (1000 * x + 100 * y + 10 * z + w, rest)
    | _, _, _, _ => none
  | _ => none

/-- Consume one expected character. -/
def expectChar (c : Char) : List Char → Option (List Char)
  | x :: rest => if x = c then some rest else none
  | [] => none

/-- Read a calendar date YYYY-MM-DD and validate it the way datetime does. -/
def readDate (l : List Char) : Option (Int × Nat × Nat × List Char) :=
  match read4 l with
  | none => none
  | some (y, l1) =>
    match expectChar '-' l1 with
    | none => none
    | some l2 =>
      match read2 l2 with
      | none => none
      | some (m, l3) =>
        match expectChar '-' l3 with
        | none => none
        | some l4 =>
          match read2 l4 with
          | none => none
          | some (d, l5) =>
            if 1 ≤ y ∧ 1 ≤ m ∧ m ≤ 12 ∧ 1 ≤ d ∧ d ≤ daysInMonth (Int.ofNat y) m then
              some ((Int.ofNat y), m, d, l5)
            else none

/-- Read a wall clock time HH:MM:SS and return it in seconds. -/
def readHMS (l : List Char) : Option (Nat × List Char) :=
  match read2 l with
  | none => none
  | some (h, l1) =>
    match expectChar ':' l1 with
    | none => none
    | some l2 =>
      match read2 l2 with
      | none => none
      | some (mi, l3) =>
        match expectChar ':' l3 with
        | none => none
        | some l4 =>
          match read2 l4 with
          | none => none
          | some (s, l5) =>
            if h ≤ 23 ∧ mi ≤ 59 ∧ s ≤ 59 then some (3600 * h + 60 * mi + s, l5)
            else none

/-- Read up to six fractional digits after a dot; absent fraction is 0. -/
def readFrac : List Char → Option (Q × List Char)
  | '.' :: rest =>
    let digits := rest.takeWhile (fun c => (readDigit c).isSome)
    let remainder := rest.dropWhile (fun c => (readDigit c).isSome)
    if 1 ≤ digits.length ∧ digits.length ≤ 6 then
      let value := digits.foldl (fun acc c => 10 * acc + ((readDigit c).getD 0)) 0
      let scale := digits.foldl (fun acc _ => 10 * acc) (1 : Nat)
      some (Q.ofInt (Int.ofNat value) / Q.ofInt (Int.ofNat scale), remainder)
    else none
  | l => some (0, l)

/-- Read a trailing UTC offset of the form +HH:MM or -HH:MM, in seconds. -/
def readOffset : List Char → Option Int
  | sign :: rest =>
    if sign = '+' ∨ sign = '-' then
      match read2 rest with
      | none => none
      | some (h, l1) =>
        match expectChar ':' l1 with
        | none => none
        | some l2 =>
          match read2 l2 with
          | none => none
          | some (mi, l3) =>
            if l3.isEmpty ∧ h ≤ 23 ∧ mi ≤ 59 then
              some (if sign = '-' then -(Int.ofNat (3600 * h + 60 * mi))
                    else Int.ofNat (3600 * h + 60 * mi))
            else none
    else none
  | [] => none

/-- Model of datetime.fromisoformat on the shapes the application writes:
a date alone, or date, one separator character, HH:MM:SS, an optional
fraction, and an optional +HH:MM offset which shifts the instant to UTC. -/
def parseIsoChars (l : List Char) : Option Q :=
  match readDate l with
  | none => none
  | some (y, m, d, rest) =>
    let base : Q := Q.ofInt (86400 * daysFromCivil y m d)
    match rest with
    | [] => some base
    | _ :: timePart =>
      match readHMS timePart with
      | none => none
      | some (secs, rest2) =>
        match readFrac rest2 with
        | none => none
        | some (frac, rest3) =>
          match rest3 with
          | [] => some (base + Q.ofInt (Int.ofNat secs) + frac)
          | _ =>
            match readOffset rest3 with
            | none => none
            | some off => some (base + Q.ofInt (Int.ofNat secs) + frac - Q.ofInt off)

/-- The timestamp branch of the resolver first rewrites a trailing Z to a
UTC offset (timestamp.replace) and then parses. -/
def parseIsoZ (s : String) : Option Q := parseIsoChars (pyReplace s "Z" "+00:00").data

/-- Smallest instant datetime can represent (0001-01-01 00:00:00). -/
def pyMinEpoch : Int := 86400 * daysFromCivil 1 1 1

/-- First instant past the largest datetime (10000-01-01 00:00:00). -/
def pyMaxEpoch : Int := 86400 * (daysFromCivil 9999 12 31 + 1)

/-- Model of datetime.fromtimestamp: a numeric Unix epoch, rejected (with
the ValueError / OSError that the resolver catches) outside the range
datetime can represent. -/
def fromtimestamp (c : Q) : Option Q :=
  if Q.ofInt pyMinEpoch ≤ c ∧ c < Q.ofInt pyMaxEpoch then some c else none

/-- Model of datetime.strptime with format %Y-%m-%d %H:%M:%S. -/
def strptimeDateTime (s : String) : Option Q :=
  match readDate s.data with
  | none => none
  | some (y, m, d, rest) =>
    match expectChar ' ' rest with
    | none => none
    | some l1 =>
      match readHMS l1 with
      | none => none
      | some (secs, rest2) =>
        if rest2.isEmpty then
          some (Q.ofInt (86400 * daysFromCivil y m d) + Q.ofInt (Int.ofNat secs))
        else none

/-- Model of datetime.strptime with format %Y-%m-%d. -/
def strptimeDate (s : String) : Option Q :=
  match readDate s.data with
  | none => none
  | some (y, m, d, rest) =>
    if rest.isEmpty then some (Q.ofInt (86400 * daysFromCivil y m d)) else none

/-- English month abbreviations used by strftime %b. -/
def monthAbbr (m : Nat) : String :=
  (["Jan", "Feb", "Mar", "Apr", "May", "Jun",
    "Jul", "Aug", "Sep", "Oct", "Nov", "Dec"].getD (m - 1) "Jan")

/-- Model of strftime with format %b %d, %Y %I:%M %p, the human label the
pipeline attaches to every compared record. -/
def formatInstant (t : Q) : String :=
  let total : Int := qfloor t
  let z : Int := Int.fdiv total 86400
  let sod : Int := total - 86400 * z
  let ymd := civilFromDays z
  let hh : Int := Int.fdiv sod 3600
  let mi : Int := Int.fdiv (sod % 3600) 60
  let h12 : Int := if hh = 0 then 12 else if hh ≤ 12 then hh else hh - 12
  let ampm : String := if hh < 12 then "AM" else "PM"
  monthAbbr ymd.2.1 ++ " " ++ pad2 ymd.2.2 ++ ", " ++ intToString ymd.1 ++ " " ++
    pad2 h12.toNat ++ ":" ++ pad2 mi.toNat ++ " " ++ ampm

/-- ISO representation of an instant of the IST timezone clock, matching
get_ist_now().isoformat() up to the microsecond field (only stored, never
read back by the pipeline). -/
def isoIST (t : Q) : String :=
  let total : Int := qfloor t
  let z : Int := Int.fdiv total 86400
  let sod : Int := total - 86400 * z
  let ymd := civilFromDays z
  intToString ymd.1 ++ "-" ++ pad2 ymd.2.1 ++ "-" ++ pad2 ymd.2.2 ++ "T" ++
    pad2 (Int.fdiv sod 3600).toNat ++ ":" ++ pad2 (Int.fdiv (sod % 3600) 60).toNat ++ ":" ++
    pad2 (sod % 60).toNat ++ "+05:30"

/-- Round half to even on Q, the rounding of the Python round builtin applied
to an exactly representable value. -/
def roundHalfEven (q : Q) : Int :=
  let f := qfloor q
  let rnum := q.num - f * q.deni
  if 2 * rnum < q.deni then f
  else if q.deni < 2 * rnum then f + 1
  else if f % 2 = 0 then f else f + 1

/-- Model of round(x, k) of Python on an exact value. -/
def roundTo (k : Nat) (q : Q) : Q :=
  ⟨roundHalfEven ⟨q.num * Int.ofNat (10 ^ k), q.den⟩, ⟨10 ^ k, Nat.pos_pow_of_pos k (by omega)⟩⟩

/-! ## Data model

A Prediction Record is a loosely typed document; the fields the pipeline
reads are modelled explicitly, the loose top level metric keys as an
association list (a Python dict never holds a key twice, and lookup takes the
first binding).  A stored value is Option Q: none models a value that is
absent or that float() rejects, so _safe_float is the identity here. -/

/-- One row of the per visit summary table of a Comparison Entry.  A metric
value none is rendered as the em dash placeholder of the source. -/
structure SummaryRow where
  id : Option String
  label : String
  Glucose : Option Q
  BloodPressure : Option Q
  BMI : Option Q
  Insulin : Option Q
  result : String
  confidence : Option Q
deriving DecidableEq

/-- One comparison analysis, nested under its originating prediction. -/
structure ComparisonEntry where
  analysis_id : String
  created_at : String
  current_prediction_id : String
  past_prediction_ids : List String
  graph_relative_path : String
  graph_url : String
  groq_explanation : String
  selected_predictions : List SummaryRow
deriving DecidableEq

/-- One stored prediction document. -/
structure PredRecord where
  id : Option String
  user_id : Option String
  timestamp : Option String
  created_at : Option Q
  date : Option String
  time : Option String
  fields : List (String × Option Q)
  medical_data : Option (List (String × Option Q))
  features : Option (List (Option Q))
  prediction : Option String
  result : Option String
  risk_level : Option String
  patient_name : Option String
  confidence : Option Q
  current_vs_normal_graph_path : Option String
  current_vs_normal_graph_url : Option String
  comparisons : List (String × ComparisonEntry)
deriving DecidableEq

/-- The empty document (a Firebase get that found nothing is coalesced to an
empty dict by the store layer). -/
def PredRecord.empty : PredRecord :=
  ⟨none, none, none, none, none, none, [], none, none, none, none, none, none, none, none, none, []⟩

/-- Truthiness of an optional string in Python (absent and empty are falsy). -/
def truthyStr : Option String → Bool
  | none => false
  | some s => !s.data.isEmpty

/-! ## Parameter Extractor (extract_parameter_value of flask_app.py) -/

/-- Fixed position of each original clinical feature in a flat feature list. -/
def FEATURE_INDEX_MAP : List (String × Nat) :=
  [("Pregnancies", 0), ("Glucose", 1), ("BloodPressure", 2), ("SkinThickness", 3),
   ("Insulin", 4), ("BMI", 5), ("DiabetesPedigreeFunction", 6), ("Age", 7)]

/-- The candidate key spellings the extractor tries, in order: the exact key,
the key without spaces, the key without underscores, and the spaced variant
of BloodPressure when that word occurs in the key. -/
def candidateKeys (key : String) : List String :=
  [key, pyReplace key " " "", pyReplace key "_" "",
   if containsSub key "BloodPressure" then pyReplace key "BloodPressure" "Blood Pressure" else key]

/-- First candidate key bound to a numeric value in a loose map; a key bound
to a non numeric value is skipped, exactly like the source loop that goes on
when _safe_float returns None. -/
def lookupNumeric (m : List (String × Option Q)) : List String → Option Q
  | [] => none
  | k :: rest =>
    match m.lookup k with
    | some (some v) => some v
    | _ => lookupNumeric m rest

/-- Positional lookup in the flat feature list of a record. -/
def featureLookup (r : PredRecord) (key : String) : Option Q :=
  match r.features with
  | none => none
  | some fs =>
    match FEATURE_INDEX_MAP.lookup key with
    | none => none
    | some idx => if idx < fs.length then fs.getD idx none else none

/-- Model of extract_parameter_value: top level candidates, then the same
candidates under medical_data, then the feature list position, else none. -/
def extract_parameter_value (r : PredRecord) (key : String) : Option Q :=
  let candidates := candidateKeys key
  match lookupNumeric r.fields candidates with
  | some v => some v
  | none =>
    match r.medical_data with
    | some md =>
      match lookupNumeric md candidates with
      | some v => some v
      | none => featureLookup r key
    | none => featureLookup r key

/-- The extraction priority chain exactly as the specification words it: the
key variants at top level, then the same variants under the nested
medical_data sub map, then the fixed position in the flat feature list,
otherwise absent. -/
def extractSpecChain (r : PredRecord) (key : String) : Option Q :=
  (lookupNumeric r.fields (candidateKeys key)).orElse fun _ =>
    ((r.medical_data.bind fun md => lookupNumeric md (candidateKeys key)).orElse fun _ =>
      featureLookup r key)

/-! ## Timestamp Resolver (parse_prediction_datetime of flask_app.py) -/

/-- Step 1: an ISO 8601 string field, with Z first rewritten to +00:00. -/
def resolveTimestampField (r : PredRecord) : Option Q := r.timestamp.bind parseIsoZ

/-- Step 2: a numeric field interpreted as a Unix epoch. -/
def resolveCreatedAtField (r : PredRecord) : Option Q := r.created_at.bind fromtimestamp

/-- Step 3: separate date and time string fields under the fixed formats of
the source (date and time together, else the date alone). -/
def resolveDateTimeFields (r : PredRecord) : Option Q :=
  if truthyStr r.date then
    if truthyStr r.time then strptimeDateTime ((r.date.getD "") ++ " " ++ (r.time.getD ""))
    else strptimeDate (r.date.getD "")
  else none

/-- Model of parse_prediction_datetime: the four step cascade ending at the
current instant (get_ist_now) when nothing resolves. -/
def parse_prediction_datetime (now : Q) (r : PredRecord) : Q :=
  match resolveTimestampField r with
  | some t => t
  | none =>
    match resolveCreatedAtField r with
    | some t => t
    | none =>
      match resolveDateTimeFields r with
      | some t => t
      | none => now

/-- Model of format_prediction_label. -/
def format_prediction_label (now : Q) (r : PredRecord) : String :=
  formatInstant (parse_prediction_datetime now r)

/-! ## Identifier sanitisation and report directories -/

/-- Characters the sanitiser keeps: ASCII letters, digits, underscore and
hyphen (the complement of the character class of the re.sub call). -/
def allowedChar (c : Char) : Bool :=
  (65 ≤ c.toNat && c.toNat ≤ 90) || (97 ≤ c.toNat && c.toNat ≤ 122) ||
    (48 ≤ c.toNat && c.toNat ≤ 57) || c = '_' || c = '-'

/-- Model of _sanitize_identifier: falsy identifiers become anonymous, every
other character outside the allowed class becomes an underscore. -/
def _sanitize_identifier (value : Option String) : String :=
  match value with
  | none => "anonymous"
  | some s =>
    if s.data.isEmpty then "anonymous"
    else ⟨s.data.map fun c => if allowedChar c then c else '_'⟩

/-- Model of _ensure_report_directory: the filesystem directory and the
relative directory of the per owner report assets (the directory creation
side effect has no observable state beyond the returned paths). -/
def _ensure_report_directory (user_id : Option String) : String × String :=
  let folder := _sanitize_identifier user_id
  ("static/reports/" ++ folder, "reports/" ++ folder)

/-! ## Document store layer (firebase_config.py)

The document store is modelled as association lists: the global predictions
node and the denormalised per user mirror, plus the list of chart files the
pipeline has written to the filesystem. -/

/-- The persisted state the pipeline touches. -/
structure Store where
  predictions : List (String × PredRecord)
  users : List (String × List (String × PredRecord))
  files : List String
deriving DecidableEq

/-- Dict assignment: replace the binding in place or append a new one. -/
def insertKV {α : Type} : List (String × α) → String → α → List (String × α)
  | [], k, v => [(k, v)]
  | (k2, v2) :: rest, k, v =>
    if k2 = k then (k, v) :: rest else (k2, v2) :: insertKV rest k v

/-- Model of get_prediction_by_id: a falsy ID returns None at once. -/
def get_prediction_by_id (st : Store) (pid : String) : Option PredRecord :=
  if pid.data.isEmpty then none else st.predictions.lookup pid

/-- Model of get_predictions_by_ids: one lookup per ID, missing documents
skipped (the truthiness test of the source also skips an empty document,
which no write path of the application produces). -/
def get_predictions_by_ids (st : Store) (ids : List String) : List (String × PredRecord) :=
  ids.foldl
    (fun acc pid =>
      match get_prediction_by_id st pid with
      | some doc => insertKV acc pid doc
      | none => acc)
    []

/-- The mirror list of predictions of one user. -/
def userPredsOf (st : Store) (uid : String) : List (String × PredRecord) :=
  (st.users.lookup uid).getD []

/-- Write one record into the per user mirror. -/
def setUserPred (st : Store) (uid pid : String) (r : PredRecord) : Store :=
  { st with users := insertKV st.users uid (insertKV (userPredsOf st uid) pid r) }

/-- Model of update_prediction_record: merge updates into the global node
and, for a truthy non anonymous owner, into the per user mirror (Firebase
update creates a missing node, hence the empty document default). -/
def update_prediction_record (st : Store) (pid : String) (f : PredRecord → PredRecord)
    (user_id : Option String) : Store :=
  if pid.data.isEmpty then st
  else
    let base := (st.predictions.lookup pid).getD PredRecord.empty
    let st1 := { st with predictions := insertKV st.predictions pid (f base) }
    if truthyStr user_id && (user_id != some "anonymous") then
      let uid := user_id.getD ""
      let ubase := ((userPredsOf st1 uid).lookup pid).getD PredRecord.empty
      setUserPred st1 uid pid (f ubase)
    else st1

/-- Model of append_prediction_comparison: insert the entry into the
comparisons map of the global node and, for a truthy non anonymous owner,
of the mirror node. -/
def append_prediction_comparison (st : Store) (pid : String) (entry : ComparisonEntry)
    (user_id : Option String) : Store :=
  if pid.data.isEmpty then st
  else if entry.analysis_id.data.isEmpty then st
  else
    let existing := (st.predictions.lookup pid).getD PredRecord.empty
    let st1 :=
      { st with predictions := (insertKV st.predictions pid
          { existing with comparisons := insertKV existing.comparisons entry.analysis_id entry }) }
    if truthyStr user_id && (user_id != some "anonymous") then
      let uid := user_id.getD ""
      let udoc := ((userPredsOf st1 uid).lookup pid).getD PredRecord.empty
      setUserPred st1 uid pid
        { udoc with comparisons := insertKV udoc.comparisons entry.analysis_id entry }
    else st1

/-! ## Chart renderers

The observable behaviour of the matplotlib renderers is the pair of returned
paths and the file written on disk; the drawing itself (series selection,
axis labels) produces pixels outside the scope of the embedding. -/

/-- Filesystem path of a chart file of one owner. -/
def chartFsPath (user_id : Option String) (filename : String) : String :=
  (_ensure_report_directory user_id).1 ++ "/" ++ filename

/-- Store relative path of a chart file of one owner. -/
def chartRelPath (user_id : Option String) (filename : String) : String :=
  (_ensure_report_directory user_id).2 ++ "/" ++ filename

/-- Model of generate_current_vs_normal_chart: writes the bar chart file and
returns its relative path and static URL (medical_data only feeds the drawn
bars). -/
def generate_current_vs_normal_chart (st : Store) (_medical_data : List (String × Q))
    (user_id : String) (prediction_id : String) : (Option String × Option String) × Store :=
  let filename := prediction_id ++ "_current_vs_normal.png"
  let rel := chartRelPath (some user_id) filename
  ((some rel, some ("/static/" ++ rel)),
   { st with files := chartFsPath (some user_id) filename :: st.files })

/-- Model of generate_history_comparison_chart: with no records it returns
the no data pair; otherwise it writes the line chart file and returns its
relative path and static URL. -/
def generate_history_comparison_chart (st : Store) (predictions : List PredRecord)
    (user_id : String) (analysis_id : String) : (Option String × Option String) × Store :=
  if predictions.isEmpty then ((none, none), st)
  else
    let filename := analysis_id ++ "_history_comparison.png"
    let rel := chartRelPath (some user_id) filename
    ((some rel, some ("/static/" ++ rel)),
     { st with files := chartFsPath (some user_id) filename :: st.files })

/-! ## Narrative Synthesizer prompt (build_comparison_prompt) -/

/-- The four tracked parameters: extractor key, stored label, display label. -/
def COMPARISON_PARAMETERS : List (String × String × String) :=
  [("Glucose", "Glucose", "Glucose (mg/dL)"),
   ("BloodPressure", "Blood Pressure", "Blood Pressure (mmHg)"),
   ("BMI", "BMI", "BMI (kg/m²)"),
   ("Insulin", "Insulin", "Insulin (μU/mL)")]

/-- Part of a display label before the parenthesis, trailing spaces
stripped (display_label.split of the source). -/
def labelPrefixOf (s : String) : String :=
  ⟨((s.data.takeWhile fun c => c ≠ '(').reverse.dropWhile fun c => c = ' ').reverse⟩

/-- Join strings with a separator. -/
def joinSep (sep : String) : List String → String
  | [] => ""
  | [x] => x
  | x :: xs => x ++ sep ++ joinSep sep xs

/-- Truthiness of an optional numeric value in Python. -/
def qTruthy : Option Q → Bool
  | none => false
  | some c => c.num != 0

/-- The history line of one record inside the prompt. -/
def promptLine (now : Q) (p : Nat × PredRecord) : String :=
  let idx := p.1 + 1
  let record := p.2
  let tsLabel := format_prediction_label now record
  let metrics := COMPARISON_PARAMETERS.foldr
    (fun param acc =>
      match extract_parameter_value record param.1 with
      | some v => (labelPrefixOf param.2.2 ++ ": " ++ qToString (roundTo 2 v)) :: acc
      | none => acc)
    []
  let risk : String :=
    if truthyStr record.prediction then record.prediction.getD ""
    else if truthyStr record.result then record.result.getD ""
    else record.risk_level.getD ""
  let riskText : String := if !risk.data.isEmpty then " | Result: " ++ risk else ""
  let riskText2 : String :=
    if qTruthy record.confidence then
      riskText ++ " (Confidence " ++ qToString (roundTo 1 (record.confidence.getD 0)) ++ "%)"
    else riskText
  natToDigits idx ++ ". " ++ tsLabel ++ " — " ++ joinSep "; " metrics ++ riskText2

/-- Model of build_comparison_prompt (the ASCII apostrophe of the source
text is rendered as the typographic one). -/
def build_comparison_prompt (now : Q) (predictions : List PredRecord) : String :=
  let ordered := pySorted (parse_prediction_datetime now) predictions
  let historyBlock := joinSep "\n" (ordered.enum.map (promptLine now))
  "\nYou are Dr. Elena Martinez, a board-certified endocrinologist. Review the patient’s diabetes-related assessments listed below.\n\nPatient visits (oldest to most recent):\n"
    ++ historyBlock
    ++ "\n\nSummarize in three sections titled Improvements, Concerns, and Recommendations. For each section, provide up to three concise bullet points in plain language that a patient can understand. Reference trends instead of repeating raw numbers. Keep the response under 180 words and maintain a supportive clinical tone without disclaimers.\n"

/-! ## The comparison endpoint (analyze_prediction_trends) -/

/-- Session data of the logged in caller. -/
structure Session where
  user_id : Option String
  role : Option String
deriving DecidableEq

/-- JSON body of a comparison request.  The typed field subsumes the
isinstance list check of the source (a non list body is outside this
embedding), and the admin only user_id override is carried although the
source computes and then never reads its target_user_id. -/
structure Payload where
  current_prediction_id : Option String
  past_prediction_ids : Option (List String)
  user_id : Option String
deriving DecidableEq

/-- The environment of one request: the lazily initialised LLM capability
(None when GROQ_API_KEY is missing; invocation may fail), the hex of the
generated analysis UUID, and the current instant. -/
structure Env where
  llm : Option (String → Except String String)
  fresh : String
  now : Q

/-- The success body of the comparison endpoint. -/
structure AnalysisResponse where
  analysis_id : String
  explanation : String
  comparison_graph_url : String
  current_vs_normal_graph_url : Option String
  report_download_url : String
  selected_predictions : List SummaryRow
deriving DecidableEq

/-- An HTTP level outcome: an error JSON with a status code, the success
JSON of the analysis endpoint, or a PDF download with its filename. -/
inductive HttpResp where
  | err : Nat → String → HttpResp
  | okAnalysis : AnalysisResponse → HttpResp
  | okPdf : String → HttpResp
deriving DecidableEq

/-- HTTP status of an outcome. -/
def respStatus : HttpResp → Nat
  | .err s _ => s
  | _ => 200

/-- Rounded metric cell of a summary row (the em dash of the source is the
none value here). -/
def formatMetric (r : PredRecord) (key : String) : Option Q :=
  (extract_parameter_value r key).map (roundTo 2)

/-- One row of the per visit summary table. -/
def mkSummaryRow (now : Q) (record : PredRecord) : SummaryRow :=
  { id := record.id
    label := format_prediction_label now record
    Glucose := formatMetric record "Glucose"
    BloodPressure := formatMetric record "BloodPressure"
    BMI := formatMetric record "BMI"
    Insulin := formatMetric record "Insulin"
    result := if truthyStr record.prediction then record.prediction.getD ""
              else record.result.getD "N/A"
    confidence := record.confidence.map (roundTo 2) }

/-- The per ID fetch and authorisation loop of the endpoint: a missing
document is NotFound, and for a non admin caller a document whose recorded
owner differs from the owner of the current record is an ownership mismatch
(a document with no recorded owner defaults to that owner and passes). -/
def resolveLoop (pmap : List (String × PredRecord)) (is_admin : Bool) (owner_id : String) :
    List String → Except HttpResp (List PredRecord)
  | [] => .ok []
  | pid :: rest =>
    match pmap.lookup pid with
    | none => .error (.err 404 ("Prediction " ++ pid ++ " not found"))
    | some pred =>
      if !is_admin && (pred.user_id.getD owner_id != owner_id) then
        .error (.err 403 "Prediction ownership mismatch")
      else
        match resolveLoop pmap is_admin owner_id rest with
        | .error e => .error e
        | .ok l => .ok ({ pred with id := some pid } :: l)

/-- Attach the freshly rendered current vs normal chart paths to a record
(the updates dict of the backfill step). -/
def setGraphFields (gp gu : String) (r : PredRecord) : PredRecord :=
  { r with
    current_vs_normal_graph_path := some gp
    current_vs_normal_graph_url := some gu }

/-- Python x or 0.0 on an extracted metric. -/
def pyOrZero : Option Q → Q
  | none => 0
  | some v => if v.num = 0 then 0 else v

/-- The backfill metric map for a legacy record without a current vs normal
chart. -/
def fallbackMedical (current : PredRecord) : List (String × Q) :=
  [("Glucose", pyOrZero (extract_parameter_value current "Glucose")),
   ("Blood Pressure", pyOrZero (extract_parameter_value current "BloodPressure")),
   ("BMI", pyOrZero (extract_parameter_value current "BMI")),
   ("Insulin", pyOrZero (extract_parameter_value current "Insulin"))]

/-- Model of the POST /prediction/analysis endpoint
(analyze_prediction_trends).  An exception raised by the LLM invocation is
the only failure modelled inside the try block; it reaches the generic
handler, which answers 500 with the state written so far. -/
def analyze_prediction_trends (env : Env) (st : Store) (sess : Session) (payload : Payload) :
    HttpResp × Store :=
  match env.llm with
  | none => (.err 503 "AI analysis service is unavailable. Please configure GROQ_API_KEY.", st)
  | some invoke =>
    let past := payload.past_prediction_ids.getD []
    if !truthyStr payload.current_prediction_id then
      (.err 400 "current_prediction_id is required", st)
    else if past.length < 2 ∨ 3 < past.length then
      (.err 400 "Select 2 or 3 past predictions for comparison", st)
    else
      let cur := payload.current_prediction_id.getD ""
      let is_admin := sess.role == some "admin"
      let comparison_ids := past ++ [cur]
      let predictions_map0 := get_predictions_by_ids st comparison_ids
      let pmapAndCurrent :=
        match predictions_map0.lookup cur with
        | some p => some (predictions_map0, p)
        | none =>
          match get_prediction_by_id st cur with
          | some p => some (insertKV predictions_map0 cur p, p)
          | none => none
      match pmapAndCurrent with
      | none => (.err 404 "Current prediction not found", st)
      | some (predictions_map, current) =>
        let owner_id := current.user_id.getD "anonymous"
        if !is_admin && (some owner_id != sess.user_id) then
          (.err 403 "Unauthorized access to prediction data", st)
        else
          match resolveLoop predictions_map is_admin owner_id comparison_ids with
          | .error e => (e, st)
          | .ok resolved =>
            let analysis_id := "analysis_" ++ env.fresh
            let backfilled :=
              if !truthyStr current.current_vs_normal_graph_path then
                let chart := generate_current_vs_normal_chart st (fallbackMedical current)
                  owner_id cur
                match chart.1.1, chart.1.2 with
                | some gp, some gu =>
                  (setGraphFields gp gu current,
                   update_prediction_record chart.2 cur (setGraphFields gp gu) (some owner_id))
                | _, _ => (current, chart.2)
              else (current, st)
            let current2 := backfilled.1
            let st1 := backfilled.2
            let chart2 := generate_history_comparison_chart st1 resolved owner_id analysis_id
            let st2 := chart2.2
            match chart2.1.1, chart2.1.2 with
            | some comparison_path, some comparison_url =>
              match invoke (build_comparison_prompt env.now resolved) with
              | .error _ => (.err 500 "Failed to generate comparison analysis", st2)
              | .ok explanation_text =>
                let ordered := pySorted (parse_prediction_datetime env.now) resolved
                let summary_rows := ordered.map (mkSummaryRow env.now)
                let entry : ComparisonEntry :=
                  { analysis_id := analysis_id
                    created_at := isoIST env.now
                    current_prediction_id := cur
                    past_prediction_ids := past
                    graph_relative_path := comparison_path
                    graph_url := comparison_url
                    groq_explanation := explanation_text
                    selected_predictions := summary_rows }
                let st3 := append_prediction_comparison st2 cur entry (some owner_id)
                let download_url :=
                  "/prediction/comparison/" ++ cur ++ "/" ++ analysis_id ++ "/download"
                (.okAnalysis
                  { analysis_id := analysis_id
                    explanation := explanation_text
                    comparison_graph_url := comparison_url
                    current_vs_normal_graph_url := current2.current_vs_normal_graph_url
                    report_download_url := download_url
                    selected_predictions := summary_rows }, st3)
            | _, _ => (.err 500 "Failed to generate comparison chart", st2)

/-! ## The download endpoint (download_comparison_report) -/

/-- Model of generate_comparison_pdf restricted to its observable interface:
the returned filename (the PDF bytes are out of scope; missing chart files
are skipped inside the composer without error). -/
def generate_comparison_pdf_filename (prediction : PredRecord) (entry : ComparisonEntry) : String :=
  "comparison_report_" ++ _sanitize_identifier (some (prediction.patient_name.getD "Patient"))
    ++ "_" ++ entry.analysis_id ++ ".pdf"

/-- Model of GET /prediction/comparison/(prediction_id)/(analysis_id)/download. -/
def download_comparison_report (st : Store) (sess : Session)
    (prediction_id analysis_id : String) : HttpResp :=
  if prediction_id.data.isEmpty ∨ analysis_id.data.isEmpty then
    .err 400 "Missing identifiers"
  else
    let is_admin := sess.role == some "admin"
    match get_prediction_by_id st prediction_id with
    | none => .err 404 "Prediction not found"
    | some prediction =>
      let owner_id := prediction.user_id.getD "anonymous"
      if !is_admin && (some owner_id != sess.user_id) then
        .err 403 "Unauthorized request"
      else
        match prediction.comparisons.lookup analysis_id with
        | none => .err 404 "Comparison analysis not found"
        | some entry => .okPdf (generate_comparison_pdf_filename prediction entry)

/-! ## Feature engineering of the prediction endpoint (predict) -/

/-- The feature vector the predict endpoint assembles: the 8 validated
clinical inputs followed by the two derived features, the BMI age
interaction and the glucose insulin quotient whose denominator is
insulin + 1 (the source adds 1 to avoid division by zero). -/
def predictFeatures (pregnancies glucose bloodPressure skinThickness insulin bmi dpf age : Q) :
    List Q :=
  [pregnancies, glucose, bloodPressure, skinThickness, insulin, bmi, dpf, age,
   bmi * age, glucose / (insulin + 1)]

/-- The medical_data map the predict endpoint stores alongside the outcome,
one named entry per feature vector position. -/
def predictMedicalData (pregnancies glucose bloodPressure skinThickness insulin bmi dpf age : Q) :
    List (String × Q) :=
  let f := predictFeatures pregnancies glucose bloodPressure skinThickness insulin bmi dpf age
  [("Pregnancies", f.getD 0 0), ("Glucose", f.getD 1 0), ("Blood Pressure", f.getD 2 0),
   ("Skin Thickness", f.getD 3 0), ("Insulin", f.getD 4 0), ("BMI", f.getD 5 0),
   ("Diabetes Pedigree Function", f.getD 6 0), ("Age", f.getD 7 0),
   ("BMI_Age_Interaction", f.getD 8 0), ("Glucose_Insulin_Ratio", f.getD 9 0)]

/-- The comparisons map stored under one prediction of the global node. -/
def comparisonsOf (st : Store) (pid : String) : List (String × ComparisonEntry) :=
  ((st.predictions.lookup pid).getD PredRecord.empty).comparisons

/-- The comparisons map stored under one prediction of the per user mirror. -/
def userComparisonsOf (st : Store) (uid pid : String) : List (String × ComparisonEntry) :=
  (((userPredsOf st uid).lookup pid).getD PredRecord.empty).comparisons

/-! ## Concrete fixtures used by witnesses and counterexamples -/

/-- One well formed stored prediction with an owner, an ISO timestamp and a
glucose value. -/
def sampleRecord (owner ts : String) (glu : Int) : PredRecord :=
  { PredRecord.empty with
    user_id := some owner
    timestamp := some ts
    fields := [("Glucose", some (Q.ofInt glu))]
    prediction := some "High Risk of Diabetes"
    confidence := some (Q.ofInt 85) }

/-- Three predictions of one owner at increasing instants. -/
def fixtureStore : Store :=
  { predictions :=
      [("p1", sampleRecord "u1" "2024-01-01T10:00:00" 140),
       ("p2", sampleRecord "u1" "2024-02-01T10:00:00" 125),
       ("p3", sampleRecord "u1" "2024-03-01T10:00:00" 98)],
    users := [], files := [] }

/-- The fixture store with the second past record owned by another user. -/
def mixedStore : Store :=
  { predictions :=
      [("p1", sampleRecord "u1" "2024-01-01T10:00:00" 140),
       ("p2", sampleRecord "u2" "2024-02-01T10:00:00" 125),
       ("p3", sampleRecord "u1" "2024-03-01T10:00:00" 98)],
    users := [], files := [] }

/-- A store holding a single record of owner u2. -/
def foreignStore : Store :=
  { predictions := [("p1", sampleRecord "u2" "2024-01-01T10:00:00" 140)],
    users := [], files := [] }

/-- The empty store. -/
def emptyStore : Store := { predictions := [], users := [], files := [] }

/-- A working LLM environment. -/
def fixtureEnv : Env :=
  { llm := some fun _ => .ok "narrative", fresh := "abc", now := Q.ofInt 1700000000 }

/-- The environment whose LLM invocation always raises. -/
def fixtureEnvFail : Env :=
  { llm := some fun _ => .error "boom", fresh := "abc", now := Q.ofInt 1700000000 }

/-- The environment with no configured LLM capability. -/
def fixtureEnvNoLLM : Env := { llm := none, fresh := "abc", now := Q.ofInt 1700000000 }

/-- The non administrative session of user u1. -/
def fixtureSession : Session := { user_id := some "u1", role := some "user" }

/-- The comparison request: current p3, past predictions supplied newest
first. -/
def fixturePayload : Payload :=
  { current_prediction_id := some "p3", past_prediction_ids := some ["p2", "p1"],
    user_id := none }

/-- A request that is invalid twice over: no current ID and only one past
ID. -/
def badPayload : Payload :=
  { current_prediction_id := none, past_prediction_ids := some ["a"], user_id := none }

/-- A request with a current ID but only one past ID. -/
def badArityPayload : Payload :=
  { current_prediction_id := some "p3", past_prediction_ids := some ["p1"], user_id := none }

/-! ## Helper lemmas on the store model -/

theorem lookup_cons {α : Type} (a : String × α) (tl : List (String × α)) (k2 : String) :
    List.lookup k2 (a :: tl) = if k2 = a.1 then some a.2 else List.lookup k2 tl := by
  obtain ⟨x, y⟩ := a
  by_cases h : k2 = x
  · subst h
    simp [List.lookup]
  · simp [List.lookup, h, beq_eq_false_iff_ne.mpr h]

theorem lookup_insertKV {α : Type} (m : List (String × α)) (k : String) (v : α) (k2 : String) :
    (insertKV m k v).lookup k2 = if k2 = k then some v else m.lookup k2 := by
  induction m with
  | nil =>
    simp [insertKV, lookup_cons]
  | cons hd tl ih =>
    simp only [insertKV]
    by_cases hk : hd.1 = k
    · simp only [if_pos hk]
      rw [lookup_cons, lookup_cons]
      by_cases h2 : k2 = k
      · simp [h2]
      · rw [hk]
        simp [h2]
    · simp only [if_neg hk]
      rw [lookup_cons, lookup_cons, ih]
      by_cases h2 : k2 = hd.1
      · have hkk : ¬k2 = k := by rw [h2]; exact hk
        simp [h2, hkk, hk]
      · simp [h2]

/-- Lookup in the map built by get_predictions_by_ids, characterised over
the fold. -/
theorem foldl_fetch_lookup (st : Store) (ids : List String)
    (acc : List (String × PredRecord)) (pid : String) :
    ((ids.foldl
      (fun acc p =>
        match get_prediction_by_id st p with
        | some doc => insertKV acc p doc
        | none => acc)
      acc).lookup pid)
      = if pid ∈ ids ∧ (get_prediction_by_id st pid).isSome then get_prediction_by_id st pid
        else acc.lookup pid := by
  induction ids generalizing acc with
  | nil => simp
  | cons i rest ih =>
    simp only [List.foldl_cons]
    rcases hfetch : get_prediction_by_id st i with _ | doc
    · rw [ih]
      by_cases hmem : pid ∈ rest ∧ (get_prediction_by_id st pid).isSome
      · simp [hmem, List.mem_cons, hmem.1, hmem.2]
      · by_cases hpi : pid = i
        · subst hpi
          simp [hfetch, hmem]
        · simp only [List.mem_cons]
          have : ¬((pid = i ∨ pid ∈ rest) ∧ (get_prediction_by_id st pid).isSome = true) := by
            intro hcon
            rcases hcon with ⟨hor, hsome⟩
            rcases hor with h1 | h1
            · exact hpi h1
            · exact hmem ⟨h1, hsome⟩
          simp [hmem, this]
    · rw [ih]
      by_cases hmem : pid ∈ rest ∧ (get_prediction_by_id st pid).isSome
      · simp [List.mem_cons, hmem.1, hmem.2, hmem]
      · by_cases hpi : pid = i
        · subst hpi
          simp [hfetch, lookup_insertKV]
        · have : ¬((pid = i ∨ pid ∈ rest) ∧ (get_prediction_by_id st pid).isSome = true) := by
            intro hcon
            rcases hcon with ⟨hor, hsome⟩
            rcases hor with h1 | h1
            · exact hpi h1
            · exact hmem ⟨h1, hsome⟩
          simp only [List.mem_cons]
          simp [hmem, this, lookup_insertKV, hpi]

theorem get_predictions_by_ids_lookup (st : Store) (ids : List String) (pid : String) :
    (get_predictions_by_ids st ids).lookup pid
      = if pid ∈ ids ∧ (get_prediction_by_id st pid).isSome then get_prediction_by_id st pid
        else none := by
  have := foldl_fetch_lookup st ids [] pid
  simpa [get_predictions_by_ids] using this

theorem get_predictions_by_ids_sound (st : Store) (ids : List String) (pid : String)
    (rec : PredRecord) (h : (get_predictions_by_ids st ids).lookup pid = some rec) :
    get_prediction_by_id st pid = some rec := by
  rw [get_predictions_by_ids_lookup] at h
  by_cases hc : pid ∈ ids ∧ (get_prediction_by_id st pid).isSome
  · rwa [if_pos hc] at h
  · rw [if_neg hc] at h
    cases h

theorem resolveLoop_ok_elim (pmap : List (String × PredRecord)) (a : Bool) (o : String) :
    ∀ ids l, resolveLoop pmap a o ids = .ok l →
      l.length = ids.length ∧
      ∀ r ∈ l, ∃ pid ∈ ids, ∃ rec, pmap.lookup pid = some rec ∧ r = { rec with id := some pid }
  | [], l, h => by
    simp only [resolveLoop] at h
    cases h
    simp
  | pid :: rest, l, h => by
    simp only [resolveLoop] at h
    rcases hlook : pmap.lookup pid with _ | pred
    · simp only [hlook] at h
      cases h
    · simp only [hlook] at h
      by_cases hown : (!a && (pred.user_id.getD o != o)) = true
      · rw [if_pos hown] at h
        cases h
      · rw [if_neg hown] at h
        rcases hrec : resolveLoop pmap a o rest with e | tail
        · simp only [hrec] at h
          cases h
        · simp only [hrec] at h
          cases h
          have ih := resolveLoop_ok_elim pmap a o rest tail hrec
          refine ⟨by simp [ih.1], ?_⟩
          intro r hr
          rcases List.mem_cons.mp hr with hhead | htail
          · exact ⟨pid, List.mem_cons_self pid rest, pred, hlook, hhead⟩
          · rcases ih.2 r htail with ⟨p2, hp2, rec2, hlk2, hr2⟩
            exact ⟨p2, List.mem_cons_of_mem pid hp2, rec2, hlk2, hr2⟩

theorem resolveLoop_all_owned (pmap : List (String × PredRecord)) (a : Bool) (o : String) :
    ∀ ids, (∀ pid ∈ ids, ∃ rec, pmap.lookup pid = some rec ∧ rec.user_id.getD o = o) →
      ∃ l, resolveLoop pmap a o ids = .ok l ∧ l.length = ids.length
  | [], _ => ⟨[], rfl, rfl⟩
  | pid :: rest, hall => by
    rcases hall pid (List.mem_cons_self pid rest) with ⟨rec, hlook, hown⟩
    rcases resolveLoop_all_owned pmap a o rest
        (fun p hp => hall p (List.mem_cons_of_mem pid hp)) with ⟨tail, htail, hlen⟩
    refine ⟨{ rec with id := some pid } :: tail, ?_, by simp [hlen]⟩
    simp only [resolveLoop, hlook, htail]
    have : (rec.user_id.getD o != o) = false := by
      simp [bne_iff_ne, hown]
    rw [this]
    simp

theorem resolveLoop_mismatch (pmap : List (String × PredRecord)) (o : String) :
    ∀ ids,
      (∀ pid ∈ ids, (pmap.lookup pid).isSome = true) →
      (∃ pid ∈ ids, ∃ rec, pmap.lookup pid = some rec ∧ rec.user_id.isSome = true ∧
        rec.user_id.getD o ≠ o) →
      resolveLoop pmap false o ids = .error (.err 403 "Prediction ownership mismatch")
  | [], _, hex => by
    rcases hex with ⟨pid, hmem, _⟩
    cases hmem
  | pid :: rest, hall, hex => by
    have hsome := hall pid (List.mem_cons_self pid rest)
    rcases hlook : pmap.lookup pid with _ | pred
    · rw [hlook] at hsome
      cases hsome
    · simp only [resolveLoop, hlook]
      by_cases hbad : pred.user_id.getD o ≠ o
      · have : (!false && (pred.user_id.getD o != o)) = true := by
          simp [bne_iff_ne, hbad]
        rw [this]
        simp
      · have hpass : (!false && (pred.user_id.getD o != o)) = false := by
          simp [bne_iff_ne]
          exact of_not_not hbad
        rw [hpass]
        simp only [Bool.false_eq_true, if_false]
        have hrest : resolveLoop pmap false o rest = .error (.err 403 "Prediction ownership mismatch") := by
          apply resolveLoop_mismatch pmap o rest
          · exact fun p hp => hall p (List.mem_cons_of_mem pid hp)
          · rcases hex with ⟨p2, hp2, rec2, hlk2, hrec2some, hrec2⟩
            rcases List.mem_cons.mp hp2 with hh | ht
            · subst hh
              rw [hlook] at hlk2
              cases hlk2
              exact absurd hrec2 hbad
            · exact ⟨p2, ht, rec2, hlk2, hrec2some, hrec2⟩
        rw [hrest]

theorem resolveLoop_error_status (pmap : List (String × PredRecord)) (a : Bool) (o : String) :
    ∀ ids e, resolveLoop pmap a o ids = .error e →
      respStatus e = 404 ∨ respStatus e = 403
  | [], e, h => by
    simp only [resolveLoop] at h
    cases h
  | pid :: rest, e, h => by
    simp only [resolveLoop] at h
    rcases hlook : pmap.lookup pid with _ | pred
    · simp only [hlook] at h
      cases h
      simp [respStatus]
    · simp only [hlook] at h
      by_cases hown : (!a && (pred.user_id.getD o != o)) = true
      · rw [if_pos hown] at h
        cases h
        simp [respStatus]
      · rw [if_neg hown] at h
        rcases hrec : resolveLoop pmap a o rest with e2 | tail
        · simp only [hrec] at h
          cases h
          exact resolveLoop_error_status pmap a o rest _ hrec
        · simp only [hrec] at h
          cases h

/-! ## The sorting model -/

theorem pySorted_sorted {α : Type} (key : α → Q) (l : List α) :
    List.Sorted (keyLe key) (pySorted key l) :=
  List.sorted_insertionSort (keyLe key) l

theorem pySorted_perm {α : Type} (key : α → Q) (l : List α) :
    List.Perm (pySorted key l) l :=
  List.perm_insertionSort (keyLe key) l

/-! ## Observers of the persisted comparison state -/

theorem comparisonsOf_setFiles (X : Store) (fs : List String) (pid : String) :
    comparisonsOf { predictions := X.predictions, users := X.users, files := fs } pid
      = comparisonsOf X pid := rfl

theorem userComparisonsOf_setFiles (X : Store) (fs : List String) (uid pid : String) :
    userComparisonsOf { predictions := X.predictions, users := X.users, files := fs } uid pid
      = userComparisonsOf X uid pid := rfl

theorem comparisonsOf_update (st : Store) (pid : String) (f : PredRecord → PredRecord)
    (uid : Option String) (p2 : String) (hf : ∀ r, (f r).comparisons = r.comparisons) :
    comparisonsOf (update_prediction_record st pid f uid) p2 = comparisonsOf st p2 := by
  unfold update_prediction_record
  by_cases hempty : pid.data.isEmpty
  · simp [hempty]
  · simp only [hempty, Bool.false_eq_true, if_false]
    by_cases hmirror : (truthyStr uid && (uid != some "anonymous")) = true
    · simp only [hmirror, if_true]
      unfold comparisonsOf setUserPred
      simp only [lookup_insertKV]
      by_cases hp : p2 = pid
      · simp [hp, hf]
      · simp [hp]
    · simp only [hmirror, Bool.false_eq_true, if_false]
      unfold comparisonsOf
      simp only [lookup_insertKV]
      by_cases hp : p2 = pid
      · simp [hp, hf]
      · simp [hp]

theorem userComparisonsOf_update (st : Store) (pid : String) (f : PredRecord → PredRecord)
    (uid : Option String) (uid2 pid2 : String) (hf : ∀ r, (f r).comparisons = r.comparisons) :
    userComparisonsOf (update_prediction_record st pid f uid) uid2 pid2
      = userComparisonsOf st uid2 pid2 := by
  unfold update_prediction_record
  by_cases hempty : pid.data.isEmpty
  · simp [hempty]
  · simp only [hempty, Bool.false_eq_true, if_false]
    by_cases hmirror : (truthyStr uid && (uid != some "anonymous")) = true
    · simp only [hmirror, if_true]
      unfold userComparisonsOf setUserPred userPredsOf
      simp only [lookup_insertKV]
      by_cases hu : uid2 = uid.getD ""
      · simp only [hu, if_pos rfl]
        by_cases hp : pid2 = pid
        · simp [hp, hf, lookup_insertKV]
        · simp [hp, lookup_insertKV]
      · simp [hu, lookup_insertKV]
    · simp only [hmirror, Bool.false_eq_true, if_false]
      rfl

theorem files_update (st : Store) (pid : String) (f : PredRecord → PredRecord)
    (uid : Option String) :
    (update_prediction_record st pid f uid).files = st.files := by
  unfold update_prediction_record
  by_cases hempty : pid.data.isEmpty
  · simp [hempty]
  · simp only [hempty, Bool.false_eq_true, if_false]
    by_cases hmirror : (truthyStr uid && (uid != some "anonymous")) = true
    · simp [hmirror, setUserPred]
    · simp [hmirror]

/-! ## Character level helpers for the sanitiser -/

theorem sanitize_all_allowed (v : Option String) :
    (_sanitize_identifier v).data.all allowedChar = true := by
  rcases v with _ | s
  · decide
  · unfold _sanitize_identifier
    by_cases h : s.data.isEmpty
    · simp only [h, if_true]
      decide
    · simp only [h, Bool.false_eq_true, if_false]
      show (s.data.map fun c => if allowedChar c then c else '_').all allowedChar = true
      rw [List.all_map]
      rw [List.all_eq_true]
      intro c _
      by_cases hc : allowedChar c
      · simp [hc]
      · simp only [Function.comp]
        rw [if_neg hc]
        decide

theorem count_zero_of_all_allowed (l : List Char) (c : Char)
    (h : l.all allowedChar = true) (hc : allowedChar c = false) : l.count c = 0 := by
  induction l with
  | nil => rfl
  | cons x xs ih =>
    rw [List.all_cons] at h
    rcases Bool.and_eq_true_iff.mp h with ⟨hx, hxs⟩
    have hbc : (x == c) = false := by
      by_cases hxc : x = c
      · subst hxc
        rw [hx] at hc
        cases hc
      · exact beq_eq_false_iff_ne.mpr hxc
    simp [List.count_cons, hbc, ih hxs]

/-! ## Claim theorems -/

/-- C5: for every record and every tracked parameter name, extract returns
the value from the first matching source in the priority order (exact key
and its normalised variants at top level, the same variants under the nested
medical_data sub map, then the fixed position in the flat feature list), and
when no representation is found it returns absent rather than zero or an
error. -/
theorem C5_extractor_priority (r : PredRecord) (key : String) :
    extract_parameter_value r key = extractSpecChain r key ∧
    (extract_parameter_value r key = none ↔
      lookupNumeric r.fields (candidateKeys key) = none ∧
      (r.medical_data.bind fun md => lookupNumeric md (candidateKeys key)) = none ∧
      featureLookup r key = none) := by
  unfold extract_parameter_value extractSpecChain
  rcases h1 : lookupNumeric r.fields (candidateKeys key) with _ | v
  · rcases h2 : r.medical_data with _ | md
    · simp [h1, h2, Option.orElse]
    · rcases h3 : lookupNumeric md (candidateKeys key) with _ | w
      · simp [h1, h2, h3, Option.orElse]
      · simp [h1, h2, h3, Option.orElse]
  · simp [h1, Option.orElse]

/-- C6: the Timestamp Resolver derives the canonical instant by this exact
priority: a parseable ISO 8601 string field; else a numeric field as a Unix
epoch; else the separate date and time string fields under the fixed format;
else the current instant. -/
theorem C6_timestamp_priority (now : Q) (r : PredRecord) :
    (∀ s t, r.timestamp = some s → parseIsoZ s = some t →
      parse_prediction_datetime now r = t) ∧
    (resolveTimestampField r = none →
      ∀ c t, r.created_at = some c → fromtimestamp c = some t →
        parse_prediction_datetime now r = t) ∧
    (resolveTimestampField r = none → resolveCreatedAtField r = none →
      ∀ t, resolveDateTimeFields r = some t → parse_prediction_datetime now r = t) ∧
    (resolveTimestampField r = none → resolveCreatedAtField r = none →
      resolveDateTimeFields r = none → parse_prediction_datetime now r = now) := by
  refine ⟨?_, ?_, ?_, ?_⟩
  · intro s t hs ht
    unfold parse_prediction_datetime resolveTimestampField
    rw [hs]
    simp [ht]
  · intro h1 c t hc ht
    unfold parse_prediction_datetime resolveCreatedAtField
    rw [h1, hc]
    simp [ht]
  · intro h1 h2 t ht
    unfold parse_prediction_datetime
    rw [h1, h2, ht]
  · intro h1 h2 h3
    unfold parse_prediction_datetime
    rw [h1, h2, h3]

/-- C6 witness: each of the four resolution steps observed on a concrete
record. -/
theorem C6_witness :
    parse_prediction_datetime (Q.ofInt 5)
        { PredRecord.empty with timestamp := some "2024-01-02T03:04:05" }
      = Q.ofInt 1704164645 ∧
    parse_prediction_datetime (Q.ofInt 5)
        { PredRecord.empty with created_at := some (Q.ofInt 1700000000) }
      = Q.ofInt 1700000000 ∧
    parse_prediction_datetime (Q.ofInt 5)
        { PredRecord.empty with date := some "2024-01-02", time := some "03:04:05" }
      = Q.ofInt 1704164645 ∧
    parse_prediction_datetime (Q.ofInt 5) PredRecord.empty = Q.ofInt 5 := by
  refine ⟨?_, ?_, ?_, ?_⟩
  · exact (C6_timestamp_priority (Q.ofInt 5) _).1 "2024-01-02T03:04:05" _ rfl (by decide)
  · exact (C6_timestamp_priority (Q.ofInt 5) _).2.1 (by decide) _ _ rfl (by decide)
  · exact (C6_timestamp_priority (Q.ofInt 5) _).2.2.1 (by decide) (by decide) _ (by decide)
  · exact (C6_timestamp_priority (Q.ofInt 5) _).2.2.2 (by decide) (by decide) (by decide)

/-- C7 counterexample: at glucose 100 and insulin 1 the stored quotient is
strictly below glucose divided by insulin, so the stored derived feature is
not glucose divided by insulin. -/
theorem C7_counterexample :
    (List.lookup "Glucose_Insulin_Ratio" (predictMedicalData 2 100 70 20 1 30 1 40)).getD 0
      < Q.ofInt 100 / Q.ofInt 1 := by
  decide

/-- C7 amended: the two derived features stored alongside the 8 clinical
inputs are the BMI age interaction (BMI times age) and the quotient of
glucose by insulin plus one (the source offsets the denominator by one to
avoid division by zero). -/
theorem C7_derived_features (p g bp sk ins bmi dpf age : Q) :
    List.lookup "BMI_Age_Interaction" (predictMedicalData p g bp sk ins bmi dpf age)
      = some (bmi * age) ∧
    List.lookup "Glucose_Insulin_Ratio" (predictMedicalData p g bp sk ins bmi dpf age)
      = some (g / (ins + 1)) ∧
    (predictFeatures p g bp sk ins bmi dpf age).take 8 = [p, g, bp, sk, ins, bmi, dpf, age] :=
  ⟨rfl, rfl, rfl⟩

/-- C9: for every owner identifier, including the absent and the empty one,
the sanitised identifier that names the per owner asset directory holds only
letters, digits, underscore and hyphen; it holds no path separator and no
dot, the relative asset directory holds exactly its one fixed separator, and
falsy identifiers map to anonymous. -/
theorem C9_sanitized_identifier_safe (v : Option String) :
    ((_sanitize_identifier v).data.all allowedChar = true) ∧
    ((_sanitize_identifier v).data.count '/' = 0) ∧
    ((_sanitize_identifier v).data.count '\\' = 0) ∧
    ((_sanitize_identifier v).data.count '.' = 0) ∧
    (((_ensure_report_directory v).2).data.count '/' = 1) ∧
    _sanitize_identifier none = "anonymous" ∧ _sanitize_identifier (some "") = "anonymous" := by
  have hall := sanitize_all_allowed v
  have hslash := count_zero_of_all_allowed (_sanitize_identifier v).data '/' hall (by decide)
  have hback := count_zero_of_all_allowed (_sanitize_identifier v).data '\\' hall (by decide)
  have hdot := count_zero_of_all_allowed (_sanitize_identifier v).data '.' hall (by decide)
  refine ⟨hall, hslash, hback, hdot, ?_, by decide, by decide⟩
  unfold _ensure_report_directory
  show ("reports/" ++ _sanitize_identifier v).data.count '/' = 1
  rw [String.data_append, List.count_append, hslash]
  decide

/-- C10: when the LLM capability is not configured every comparison request
answers 503 before any validation, authorisation or lookup, and the store is
untouched. -/
theorem C10_llm_unconfigured (env : Env) (st : Store) (sess : Session) (payload : Payload)
    (h : env.llm = none) :
    analyze_prediction_trends env st sess payload
      = (.err 503 "AI analysis service is unavailable. Please configure GROQ_API_KEY.", st) := by
  unfold analyze_prediction_trends
  rw [h]

/-- C10 witness: a request that is invalid twice over (no current ID, one
past ID) still receives 503, not 400, when the LLM is unconfigured. -/
theorem C10_witness :
    analyze_prediction_trends fixtureEnvNoLLM fixtureStore fixtureSession badPayload
      = (.err 503 "AI analysis service is unavailable. Please configure GROQ_API_KEY.",
         fixtureStore) :=
  C10_llm_unconfigured fixtureEnvNoLLM fixtureStore fixtureSession badPayload rfl

/-- C8 counterexample: a request with one past prediction ID receives 503,
not 400, when the LLM capability is unconfigured, so bad arity does not
always fail with InvalidInput. -/
theorem C8_counterexample :
    respStatus (analyze_prediction_trends fixtureEnvNoLLM fixtureStore fixtureSession
      badArityPayload).1 = 503 ∧ (503 : Nat) ≠ 400 := by
  exact ⟨rfl, by decide⟩

/-- C8 amended: when the LLM capability is configured and a current
prediction ID is supplied, a past ID list with fewer than 2 or more than 3
entries fails with 400 and the message naming the violated constraint, and
with exactly 2 or 3 entries the request proceeds past arity validation (its
outcome is never the arity error). -/
theorem C8_arity_validation (env : Env) (st : Store) (sess : Session) (payload : Payload)
    (inv : String → Except String String)
    (hllm : env.llm = some inv)
    (hcur : truthyStr payload.current_prediction_id = true) :
    ((payload.past_prediction_ids.getD []).length < 2 ∨
        3 < (payload.past_prediction_ids.getD []).length →
      analyze_prediction_trends env st sess payload
        = (.err 400 "Select 2 or 3 past predictions for comparison", st)) ∧
    (2 ≤ (payload.past_prediction_ids.getD []).length ∧
        (payload.past_prediction_ids.getD []).length ≤ 3 →
      (analyze_prediction_trends env st sess payload).1
        ≠ .err 400 "Select 2 or 3 past predictions for comparison") := by
  obtain ⟨llm0, fresh0, now0⟩ := env
  simp only [Env.llm] at hllm
  subst hllm
  constructor
  · intro harity
    simp only [analyze_prediction_trends, hcur, Bool.not_true, Bool.false_eq_true, if_false]
    rw [if_pos harity]
  · intro hlen
    have harity : ¬((payload.past_prediction_ids.getD []).length < 2 ∨
        3 < (payload.past_prediction_ids.getD []).length) := by omega
    simp only [analyze_prediction_trends, hcur, Bool.not_true, Bool.false_eq_true, if_false]
    rw [if_neg harity]
    split
    · simp
    · split
      · simp
      · split
        · rename_i e heq
          intro hcon
          simp only at hcon
          have hstat := resolveLoop_error_status _ _ _ _ _ heq
          rw [hcon] at hstat
          simp [respStatus] at hstat
        · split
          · split
            · simp
            · simp
          · simp

/-- C8 witness: with a configured LLM, one past ID yields the arity error
and two past IDs never do. -/
theorem C8_witness :
    analyze_prediction_trends fixtureEnv fixtureStore fixtureSession badArityPayload
      = (.err 400 "Select 2 or 3 past predictions for comparison", fixtureStore) ∧
    (analyze_prediction_trends fixtureEnv fixtureStore fixtureSession fixturePayload).1
      ≠ .err 400 "Select 2 or 3 past predictions for comparison" :=
  ⟨(C8_arity_validation fixtureEnv fixtureStore fixtureSession badArityPayload _ rfl rfl).1
      (by decide),
   (C8_arity_validation fixtureEnv fixtureStore fixtureSession fixturePayload _ rfl rfl).2
      (by decide)⟩

/-- C4 counterexample: the same unauthorized caller gets 403 with the
generic denial when the foreign record exists and 404 when it does not, two
different responses, so the response does reveal whether the record
exists. -/
theorem C4_counterexample :
    download_comparison_report foreignStore fixtureSession "p1" "a1"
      = .err 403 "Unauthorized request" ∧
    download_comparison_report emptyStore fixtureSession "p1" "a1"
      = .err 404 "Prediction not found" ∧
    HttpResp.err 403 "Unauthorized request" ≠ HttpResp.err 404 "Prediction not found" :=
  ⟨rfl, rfl, by decide⟩

/-- C4 amended: an unauthorized non admin caller receives the fixed generic
denial, independent of every field of the referenced record, when the record
exists; an absent ID answers 404 instead, so the status code (and only it)
distinguishes existence. -/
theorem C4_unauthorized_responses (st st2 : Store) (sess : Session)
    (pid aid : String) (rec : PredRecord)
    (hpid : pid.data.isEmpty = false)
    (haid : aid.data.isEmpty = false)
    (hadmin : (sess.role == some "admin") = false)
    (hrec : get_prediction_by_id st pid = some rec)
    (hown : (some (rec.user_id.getD "anonymous") != sess.user_id) = true)
    (habsent : get_prediction_by_id st2 pid = none) :
    download_comparison_report st sess pid aid = .err 403 "Unauthorized request" ∧
    download_comparison_report st2 sess pid aid = .err 404 "Prediction not found" := by
  constructor
  · simp only [download_comparison_report]
    rw [if_neg (by simp [hpid, haid])]
    simp only [hrec]
    rw [if_pos (by simp [hadmin, hown])]
  · simp only [download_comparison_report]
    rw [if_neg (by simp [hpid, haid])]
    simp only [habsent]

/-- C4 witness: the amended behaviour observed on concrete stores. -/
theorem C4_witness :
    download_comparison_report foreignStore fixtureSession "p1" "z9"
      = .err 403 "Unauthorized request" ∧
    download_comparison_report emptyStore fixtureSession "p1" "z9"
      = .err 404 "Prediction not found" :=
  C4_unauthorized_responses foreignStore emptyStore fixtureSession "p1" "z9"
    (sampleRecord "u2" "2024-01-01T10:00:00" 140) rfl rfl rfl rfl (by decide) rfl

/-- C3: a comparison request by a non administrative caller in which some
referenced record (with a recorded owner) belongs to a different owner than
the caller fails with 403, and the store is wholly unchanged: no Comparison
Entry, no chart file and no record update is persisted by the rejected
attempt. -/
theorem C3_unauthorized_rejected (env : Env) (st : Store) (sess : Session) (payload : Payload)
    (inv : String → Except String String)
    (hllm : env.llm = some inv)
    (hcur : truthyStr payload.current_prediction_id = true)
    (hlen : 2 ≤ (payload.past_prediction_ids.getD []).length ∧
      (payload.past_prediction_ids.getD []).length ≤ 3)
    (hadmin : (sess.role == some "admin") = false)
    (hpresent : ∀ pid ∈ (payload.past_prediction_ids.getD [])
        ++ [payload.current_prediction_id.getD ""],
      (get_prediction_by_id st pid).isSome = true)
    (howners : ∀ pid rec,
      pid ∈ (payload.past_prediction_ids.getD []) ++ [payload.current_prediction_id.getD ""] →
      get_prediction_by_id st pid = some rec → rec.user_id.isSome = true)
    (hdiff : ∃ pid rec,
      pid ∈ ((payload.past_prediction_ids.getD [])
        ++ [payload.current_prediction_id.getD ""]) ∧
      get_prediction_by_id st pid = some rec ∧
      some (rec.user_id.getD "anonymous") ≠ sess.user_id) :
    respStatus (analyze_prediction_trends env st sess payload).1 = 403 ∧
    (analyze_prediction_trends env st sess payload).2 = st := by
  obtain ⟨llm0, fresh0, now0⟩ := env
  simp only at hllm
  subst hllm
  have harity : ¬((payload.past_prediction_ids.getD []).length < 2 ∨
      3 < (payload.past_prediction_ids.getD []).length) := by omega
  have hmemcur : payload.current_prediction_id.getD ""
      ∈ (payload.past_prediction_ids.getD []) ++ [payload.current_prediction_id.getD ""] := by
    simp
  obtain ⟨curRec, hcurRec⟩ : ∃ r,
      get_prediction_by_id st (payload.current_prediction_id.getD "") = some r := by
    have := hpresent _ hmemcur
    rcases hx : get_prediction_by_id st (payload.current_prediction_id.getD "") with _ | r
    · rw [hx] at this
      cases this
    · exact ⟨r, rfl⟩
  have hlookupCur :
      (get_predictions_by_ids st ((payload.past_prediction_ids.getD [])
        ++ [payload.current_prediction_id.getD ""])).lookup
          (payload.current_prediction_id.getD "")
        = some curRec := by
    rw [get_predictions_by_ids_lookup]
    rw [if_pos ⟨hmemcur, by rw [hcurRec]; rfl⟩]
    exact hcurRec
  simp only [analyze_prediction_trends, hcur, Bool.not_true, Bool.false_eq_true, if_false]
  rw [if_neg harity]
  simp only [hlookupCur]
  by_cases hownchk : (!(sess.role == some "admin")
      && (some (curRec.user_id.getD "anonymous") != sess.user_id)) = true
  · rw [if_pos hownchk]
    exact ⟨rfl, rfl⟩
  · rw [if_neg hownchk]
    have hcaller : some (curRec.user_id.getD "anonymous") = sess.user_id := by
      rw [hadmin] at hownchk
      simp only [Bool.not_false, Bool.true_and] at hownchk
      have := of_not_not (by simpa [bne_iff_ne] using hownchk)
      exact this
    have hmismatch := resolveLoop_mismatch
      (get_predictions_by_ids st ((payload.past_prediction_ids.getD [])
        ++ [payload.current_prediction_id.getD ""]))
      (curRec.user_id.getD "anonymous")
      ((payload.past_prediction_ids.getD []) ++ [payload.current_prediction_id.getD ""])
      (by
        intro pid hpid
        rw [get_predictions_by_ids_lookup]
        rw [if_pos ⟨hpid, hpresent pid hpid⟩]
        exact hpresent pid hpid)
      (by
        rcases hdiff with ⟨pid0, rec0, hmem0, hget0, hne0⟩
        refine ⟨pid0, hmem0, rec0, ?_, howners pid0 rec0 hmem0 hget0, ?_⟩
        · rw [get_predictions_by_ids_lookup]
          rw [if_pos ⟨hmem0, by rw [hget0]; rfl⟩]
          exact hget0
        · have hrec0some := howners pid0 rec0 hmem0 hget0
          rcases hu : rec0.user_id with _ | v
          · rw [hu] at hrec0some
            cases hrec0some
          · simp only [Option.getD_some]
            intro hcon
            apply hne0
            rw [hu, Option.getD_some, hcon]
            exact hcaller)
    rw [hadmin]
    rw [hmismatch]
    exact ⟨rfl, rfl⟩

/-- C3 witness: user u1 requesting a comparison that references the record
of u2 receives 403 and the store is unchanged. -/
theorem C3_witness :
    respStatus (analyze_prediction_trends fixtureEnv mixedStore fixtureSession fixturePayload).1
      = 403 ∧
    (analyze_prediction_trends fixtureEnv mixedStore fixtureSession fixturePayload).2
      = mixedStore :=
  C3_unauthorized_rejected fixtureEnv mixedStore fixtureSession fixturePayload _ rfl rfl
    (by decide) rfl (by decide)
    (by
      intro pid rec hmem hget
      fin_cases hmem <;> (cases hget; rfl))
    ⟨"p2", sampleRecord "u2" "2024-02-01T10:00:00" 125, by decide, rfl, by decide⟩

/-- C1 amended: when the LLM invocation raises on an otherwise valid,
authorized comparison request, the exception reaches the generic endpoint
handler: the caller receives the generic 500 (the raw LLM error is not
surfaced), no Comparison Entry is persisted in the global node or the user
mirror, and the trend chart file rendered before the LLM call stays
written. -/
theorem C1_llm_failure_no_entry (env : Env) (st : Store) (sess : Session) (payload : Payload)
    (inv : String → Except String String) (u : String)
    (hllm : env.llm = some inv)
    (hfail : ∀ p s, inv p ≠ .ok s)
    (hcur : truthyStr payload.current_prediction_id = true)
    (hlen : 2 ≤ (payload.past_prediction_ids.getD []).length ∧
      (payload.past_prediction_ids.getD []).length ≤ 3)
    (huser : sess.user_id = some u)
    (hownall : ∀ pid ∈ (payload.past_prediction_ids.getD [])
        ++ [payload.current_prediction_id.getD ""],
      ∃ rec, get_prediction_by_id st pid = some rec ∧ rec.user_id = some u) :
    (analyze_prediction_trends env st sess payload).1
      = .err 500 "Failed to generate comparison analysis" ∧
    (∀ pid, comparisonsOf (analyze_prediction_trends env st sess payload).2 pid
      = comparisonsOf st pid) ∧
    (∀ uid pid, userComparisonsOf (analyze_prediction_trends env st sess payload).2 uid pid
      = userComparisonsOf st uid pid) ∧
    chartFsPath (some u) ("analysis_" ++ env.fresh ++ "_history_comparison.png")
      ∈ (analyze_prediction_trends env st sess payload).2.files := by
  obtain ⟨llm0, fresh0, now0⟩ := env
  simp only at hllm
  subst hllm
  have harity : ¬((payload.past_prediction_ids.getD []).length < 2 ∨
      3 < (payload.past_prediction_ids.getD []).length) := by omega
  have hmemcur : payload.current_prediction_id.getD ""
      ∈ (payload.past_prediction_ids.getD []) ++ [payload.current_prediction_id.getD ""] := by
    simp
  obtain ⟨curRec, hcurRec, hcurOwner⟩ := hownall _ hmemcur
  have hlookupCur :
      (get_predictions_by_ids st ((payload.past_prediction_ids.getD [])
        ++ [payload.current_prediction_id.getD ""])).lookup
          (payload.current_prediction_id.getD "")
        = some curRec := by
    rw [get_predictions_by_ids_lookup]
    rw [if_pos ⟨hmemcur, by rw [hcurRec]; rfl⟩]
    exact hcurRec
  have hownchk : (!(sess.role == some "admin")
      && (some (curRec.user_id.getD "anonymous") != sess.user_id)) = false := by
    rw [hcurOwner, huser, Option.getD_some]
    simp
  obtain ⟨resolved, hres, hreslen⟩ := resolveLoop_all_owned
    (get_predictions_by_ids st ((payload.past_prediction_ids.getD [])
      ++ [payload.current_prediction_id.getD ""]))
    (sess.role == some "admin")
    (curRec.user_id.getD "anonymous")
    ((payload.past_prediction_ids.getD []) ++ [payload.current_prediction_id.getD ""])
    (by
      intro pid hpid
      obtain ⟨rec, hget, hrecu⟩ := hownall pid hpid
      refine ⟨rec, ?_, ?_⟩
      · rw [get_predictions_by_ids_lookup]
        rw [if_pos ⟨hpid, by rw [hget]; rfl⟩]
        exact hget
      · rw [hrecu, hcurOwner, Option.getD_some, Option.getD_some])
  have hne : resolved.isEmpty = false := by
    rcases hr : resolved with _ | ⟨a, l⟩
    · rw [hr] at hreslen
      simp at hreslen
    · rfl
  simp only [analyze_prediction_trends, hcur, Bool.not_true, Bool.false_eq_true, if_false]
  rw [if_neg harity]
  simp only [hlookupCur, hownchk, Bool.false_eq_true, if_false, hres]
  rcases hinv : inv (build_comparison_prompt now0 resolved) with e | s
  · simp only [generate_current_vs_normal_chart, generate_history_comparison_chart, hne,
      Bool.false_eq_true, if_false, hinv]
    by_cases hpath : truthyStr curRec.current_vs_normal_graph_path
    · simp only [hpath, Bool.not_true, Bool.false_eq_true, if_false]
      refine ⟨by trivial, ?_, ?_, ?_⟩
      · intro pid
        rfl
      · intro uid pid
        rfl
      · rw [hcurOwner, Option.getD_some]
        exact List.mem_cons_self _ _
    · simp only [eq_false_of_ne_true hpath, Bool.not_false, if_true]
      refine ⟨by trivial, ?_, ?_, ?_⟩
      · intro pid
        rw [comparisonsOf_setFiles, comparisonsOf_update]
        · rfl
        · intro r
          rfl
      · intro uid pid
        rw [userComparisonsOf_setFiles, userComparisonsOf_update]
        · rfl
        · intro r
          rfl
      · rw [hcurOwner, Option.getD_some]
        exact List.mem_cons_self _ _
  · exact absurd hinv (hfail _ s)

/-- C1 counterexample: a valid authorized comparison request whose LLM
invocation raises receives the generic 500 error, not a success response
with a fallback narrative, and no Comparison Entry is persisted under the
current prediction. -/
theorem C1_counterexample :
    (analyze_prediction_trends fixtureEnvFail fixtureStore fixtureSession fixturePayload).1
      = .err 500 "Failed to generate comparison analysis" ∧
    comparisonsOf (analyze_prediction_trends fixtureEnvFail fixtureStore fixtureSession
      fixturePayload).2 "p3" = [] ∧
    (500 : Nat) ≠ 200 :=
  ⟨rfl, rfl, by decide⟩

/-- C1 witness: the amended behaviour observed on the concrete failing
environment. -/
theorem C1_witness :
    (analyze_prediction_trends fixtureEnvFail fixtureStore fixtureSession fixturePayload).1
      = .err 500 "Failed to generate comparison analysis" ∧
    (∀ pid, comparisonsOf
        (analyze_prediction_trends fixtureEnvFail fixtureStore fixtureSession fixturePayload).2
        pid
      = comparisonsOf fixtureStore pid) ∧
    (∀ uid pid, userComparisonsOf
        (analyze_prediction_trends fixtureEnvFail fixtureStore fixtureSession fixturePayload).2
        uid pid
      = userComparisonsOf fixtureStore uid pid) ∧
    chartFsPath (some "u1") ("analysis_" ++ fixtureEnvFail.fresh ++ "_history_comparison.png")
      ∈ (analyze_prediction_trends fixtureEnvFail fixtureStore fixtureSession
          fixturePayload).2.files :=
  C1_llm_failure_no_entry fixtureEnvFail fixtureStore fixtureSession fixturePayload _ "u1"
    rfl (fun p s h => by cases h) rfl (by decide) rfl
    (by
      intro pid hmem
      fin_cases hmem <;> exact ⟨_, rfl, rfl⟩)

/-- C2: every Comparison Entry a successful request returns lists its
selected_predictions rows in ascending order of the resolved timestamps of
the underlying records: the rows are built over a permutation, sorted by
resolved timestamp, of the referenced records, independent of the order the
past prediction IDs were supplied in. -/
theorem C2_selected_sorted (env : Env) (st : Store) (sess : Session) (payload : Payload)
    (resp : AnalysisResponse) (st2 : Store)
    (h : analyze_prediction_trends env st sess payload = (.okAnalysis resp, st2)) :
    ∃ ordered resolved : List PredRecord,
      List.Sorted (keyLe (parse_prediction_datetime env.now)) ordered ∧
      List.Perm ordered resolved ∧
      resp.selected_predictions = ordered.map (mkSummaryRow env.now) ∧
      resolved.length = ((payload.past_prediction_ids.getD [])
        ++ [payload.current_prediction_id.getD ""]).length ∧
      (∀ r ∈ resolved, ∃ pid ∈ (payload.past_prediction_ids.getD [])
          ++ [payload.current_prediction_id.getD ""],
        ∃ rec, get_prediction_by_id st pid = some rec ∧ r = { rec with id := some pid }) := by
  obtain ⟨llm0, fresh0, now0⟩ := env
  rcases llm0 with _ | inv
  · simp only [analyze_prediction_trends] at h
    simp at h
  · simp only [analyze_prediction_trends] at h
    split at h
    · simp at h
    · split at h
      · simp at h
      · split at h
        · simp at h
        · rename_i pm current heqPmap
          split at h
          · simp at h
          · split at h
            · rename_i e heqRes
              rw [Prod.mk.injEq] at h
              obtain ⟨he, _⟩ := h
              rcases resolveLoop_error_status _ _ _ _ _ heqRes with h4 | h4 <;>
                (rw [he] at h4; simp [respStatus] at h4)
            · rename_i resolved heqRes
              split at h
              · split at h
                · simp at h
                · rw [Prod.mk.injEq] at h
                  obtain ⟨h1, _⟩ := h
                  injection h1 with h1
                  subst h1
                  refine ⟨pySorted (parse_prediction_datetime now0) resolved, resolved,
                    pySorted_sorted _ _, pySorted_perm _ _, rfl,
                    (resolveLoop_ok_elim _ _ _ _ _ heqRes).1, ?_⟩
                  intro r hr
                  obtain ⟨pid, hpid, rec, hlk, hrec⟩ :=
                    (resolveLoop_ok_elim _ _ _ _ _ heqRes).2 r hr
                  refine ⟨pid, hpid, rec, ?_, hrec⟩
                  rcases hlkc : List.lookup (payload.current_prediction_id.getD "")
                      (get_predictions_by_ids st ((payload.past_prediction_ids.getD [])
                        ++ [payload.current_prediction_id.getD ""])) with _ | p
                  · rcases hgp : get_prediction_by_id st
                        (payload.current_prediction_id.getD "") with _ | p2
                    · simp only [hlkc, hgp] at heqPmap
                      cases heqPmap
                    · simp only [hlkc, hgp] at heqPmap
                      injection heqPmap with hpair
                      rw [Prod.mk.injEq] at hpair
                      obtain ⟨hpm, _⟩ := hpair
                      rw [← hpm] at hlk
                      rw [lookup_insertKV] at hlk
                      by_cases hc : pid = payload.current_prediction_id.getD ""
                      · rw [if_pos hc] at hlk
                        injection hlk with hlk
                        rw [hc, ← hlk]
                        exact hgp
                      · rw [if_neg hc] at hlk
                        exact get_predictions_by_ids_sound _ _ _ _ hlk
                  · simp only [hlkc] at heqPmap
                    injection heqPmap with hpair
                    rw [Prod.mk.injEq] at hpair
                    obtain ⟨hpm, _⟩ := hpair
                    rw [← hpm] at hlk
                    exact get_predictions_by_ids_sound _ _ _ _ hlk
              · simp at h

/-- C2 witness: a concrete successful comparison (past IDs supplied newest
first) whose rows come out sorted oldest first. -/
theorem C2_witness :
    ∃ resp st2,
      analyze_prediction_trends fixtureEnv fixtureStore fixtureSession fixturePayload
        = (.okAnalysis resp, st2) ∧
      ∃ ordered resolved : List PredRecord,
        List.Sorted (keyLe (parse_prediction_datetime fixtureEnv.now)) ordered ∧
        List.Perm ordered resolved ∧
        resp.selected_predictions = ordered.map (mkSummaryRow fixtureEnv.now) ∧
        resolved.length = ((fixturePayload.past_prediction_ids.getD [])
          ++ [fixturePayload.current_prediction_id.getD ""]).length ∧
        (∀ r ∈ resolved, ∃ pid ∈ (fixturePayload.past_prediction_ids.getD [])
            ++ [fixturePayload.current_prediction_id.getD ""],
          ∃ rec, get_prediction_by_id fixtureStore pid = some rec ∧
            r = { rec with id := some pid }) :=
  ⟨_, _, rfl,
   C2_selected_sorted fixtureEnv fixtureStore fixtureSession fixturePayload _ _ rfl⟩

end Diabetes
